import Mathlib

/-!
Verification of the `error-pile` crate: the `ErrPile` error taxonomy
(`src/lib.rs`), the heuristic JSON error-message extractor
(`src/value.rs`), and the Microsoft/Azure structured error schemas
(`src/microsoft.rs`), shallowly embedded in Lean.
-/

set_option maxRecDepth 8000
set_option maxHeartbeats 8000000
set_option linter.unusedVariables false
set_option linter.unreachableTactic false
set_option linter.unusedTactic false

namespace ErrorPile

/-- Shallow embedding of `serde_json::Value`.  Numbers are embedded as
integers (no claim under verification involves floating-point payloads);
objects are the entry list of the underlying map (`serde_json`'s default
`Map` is a BTreeMap, so keys are unique). -/
inductive Json where
  | null
  | bool (b : Bool)
  | num (n : Int)
  | str (s : String)
  | arr (xs : List Json)
  | obj (fields : List (String × Json))

/-- Key lookup in an object's entry list: `serde_json::Map::get`. -/
def lookupField : List (String × Json) → String → Option Json
  | [], _ => none
  | (k, v) :: rest, key => if k = key then some v else lookupField rest key

theorem sizeOf_lookupField {fields : List (String × Json)} {k : String}
    {v : Json} (h : lookupField fields k = some v) :
    sizeOf v < sizeOf fields := by
  induction fields with
  | nil => simp [lookupField] at h
  | cons hd tl ih =>
    rw [lookupField] at h
    split at h
    · cases h
      cases hd
      simp
      omega
    · have := ih h
      cases hd
      simp
      omega

/-- Hex digit characters used by `serde_json`'s `\u00XX` escapes. -/
def hexDigit (n : Nat) : String :=
  if n < 10 then String.singleton (Char.ofNat (48 + n))
  else String.singleton (Char.ofNat (87 + n))

/-- Escaping of one character inside a JSON string literal, following
`serde_json`'s serializer (quote, backslash, the five short control
escapes, `\u00XX` for the remaining control characters). -/
def escapeChar (c : Char) : String :=
  let n := c.toNat
  if n = 34 then "\\\""
  else if n = 92 then "\\\\"
  else if n = 8 then "\\b"
  else if n = 9 then "\\t"
  else if n = 10 then "\\n"
  else if n = 12 then "\\f"
  else if n = 13 then "\\r"
  else if n < 32 then "\\u00" ++ hexDigit (n / 16) ++ hexDigit (n % 16)
  else String.singleton c

/-- A JSON string literal with its surrounding quotes. -/
def quoteJson (s : String) : String :=
  "\"" ++ String.join (s.data.map escapeChar) ++ "\""

mutual
/-- Compact serialization of a JSON value: `serde_json::to_string`, which
is also the `Display` implementation of `serde_json::Value`. -/
def jsonToString : Json → String
  | Json.null => "null"
  | Json.bool true => "true"
  | Json.bool false => "false"
  | Json.num n => toString n
  | Json.str s => quoteJson s
  | Json.arr xs => "[" ++ arrToString xs ++ "]"
  | Json.obj fs => "\x7b" ++ objToString fs ++ "\x7d"

/-- Compact serialization of array elements, comma separated. -/
def arrToString : List Json → String
  | [] => ""
  | [x] => jsonToString x
  | x :: xs => jsonToString x ++ "," ++ arrToString xs

/-- Compact serialization of object entries, comma separated. -/
def objToString : List (String × Json) → String
  | [] => ""
  | [(k, v)] => quoteJson k ++ ":" ++ jsonToString v
  | (k, v) :: rest => quoteJson k ++ ":" ++ jsonToString v ++ "," ++ objToString rest
end

/-- Two-space indentation at the given depth (`serde_json`'s
`PrettyFormatter` default). -/
def indentStr (n : Nat) : String :=
  String.join (List.replicate n "  ")

mutual
/-- Pretty serialization: `serde_json::to_string_pretty` at indentation
depth `ind`. -/
def prettyAux : Json → Nat → String
  | Json.obj [], _ => "\x7b\x7d"
  | Json.obj fs, ind =>
      "\x7b" ++ prettyObj fs (ind + 1) ++ "\n" ++ indentStr ind ++ "\x7d"
  | Json.arr [], _ => "[]"
  | Json.arr xs, ind =>
      "[" ++ prettyArr xs (ind + 1) ++ "\n" ++ indentStr ind ++ "]"
  | j, _ => jsonToString j

/-- Pretty serialization of array elements. -/
def prettyArr : List Json → Nat → String
  | [], _ => ""
  | [x], ind => "\n" ++ indentStr ind ++ prettyAux x ind
  | x :: xs, ind => "\n" ++ indentStr ind ++ prettyAux x ind ++ "," ++ prettyArr xs ind

/-- Pretty serialization of object entries. -/
def prettyObj : List (String × Json) → Nat → String
  | [], _ => ""
  | [(k, v)], ind => "\n" ++ indentStr ind ++ quoteJson k ++ ": " ++ prettyAux v ind
  | (k, v) :: rest, ind =>
      "\n" ++ indentStr ind ++ quoteJson k ++ ": " ++ prettyAux v ind ++ "," ++ prettyObj rest ind
end

/-- Embedding of `serde_json::to_string_pretty` as the fallible call the
source makes; serializing a `serde_json::Value` cannot in fact fail, so
the result is always `ok`. -/
def to_string_pretty (j : Json) : Except String String :=
  Except.ok (prettyAux j 0)

/-- The struct `SerdeValue` from `src/value.rs`: a newtype over
`serde_json::Value`. -/
structure SerdeValue where
  val : Json

/-- The candidate error-field names of
`SerdeValue::extract_error_from_json`, in source order. -/
def errorFields : List String :=
  ["error", "err", "message", "detail", "details", "description",
   "errorMessage", "error_message", "reason", "title"]

mutual
/-- The method `SerdeValue::extract_error_from_json` from `src/value.rs`:
on an object, scan the candidate field names in order
(`scanErrorFields`); if none yields a result, fall back to the pretty
serialization of the whole object (or the fixed string on serialization
failure); a string is returned verbatim; anything else is serialized
compactly (`Value`'s `Display`). -/
def extract_error_from_json (j : Json) : String :=
  match j with
  | Json.obj fields =>
      match scanErrorFields fields errorFields with
      | some s => s
      | none =>
          match to_string_pretty (Json.obj fields) with
          | Except.ok s => s
          | Except.error _ => "Unknown error format"
  | Json.str s => s
  | j => jsonToString j
termination_by sizeOf j * 12 + 11
decreasing_by
  have : errorFields.length = 10 := by decide
  simp
  omega

/-- The candidate-scanning loop inside `extract_error_from_json`: for
each candidate name in turn, a string value is returned as is; an object
value is recursed into, its result returned when non-empty; everything
else (absent field, or a non-string non-object value) moves on to the
next candidate. -/
def scanErrorFields (fields : List (String × Json)) (cands : List String) : Option String :=
  match cands with
  | [] => none
  | f :: rest =>
      match h : lookupField fields f with
      | some (Json.str s) => some s
      | some (Json.obj inner) =>
          let nested := extract_error_from_json (Json.obj inner)
          if nested.isEmpty then scanErrorFields fields rest else some nested
      | _ => scanErrorFields fields rest
termination_by (1 + sizeOf fields) * 12 + cands.length
decreasing_by
  · have := sizeOf_lookupField h
    simp at this ⊢
    omega
  · simp
  · simp
end

/-- The variants of `std::io::ErrorKind` (the enum is `non_exhaustive`;
`Other` stands for any kind not listed). -/
inductive IoErrorKind where
  | NotFound | PermissionDenied | ConnectionRefused | ConnectionReset
  | ConnectionAborted | NotConnected | AddrInUse | AddrNotAvailable
  | NetworkDown | BrokenPipe | AlreadyExists | WouldBlock | NotADirectory
  | IsADirectory | DirectoryNotEmpty | ReadOnlyFilesystem | FilesystemLoop
  | StaleNetworkFileHandle | InvalidInput | InvalidData | TimedOut
  | WriteZero | StorageFull | NotSeekable | FilesystemQuotaExceeded
  | FileTooLarge | ResourceBusy | ExecutableFileBusy | Deadlock
  | CrossesDevices | TooManyLinks | InvalidFilename | ArgumentListTooLong
  | Interrupted | Unsupported | UnexpectedEof | OutOfMemory
  | HostUnreachable | NetworkUnreachable | Other
deriving DecidableEq

/-- A `std::io::Error`: its kind, plus its `Display` text (the text is
produced by the standard library and is uninterpreted here). -/
structure IoError where
  kind : IoErrorKind
  display : String

/-- A `reqwest::Error`: the status code carried by `Error::status()`
(absent when the failure happened before a response arrived), plus its
uninterpreted `Display` text. -/
structure ReqwestError where
  status : Option Nat
  display : String

/-- An opaque error value from an external crate (russh, russh-sftp,
graph-rs-sdk, serde_json, pdfium-render, zip, base64, tokio, image,
timeframe, url, reqwest header conversion): only its `Display` text is
observable in this development. -/
structure ExternalError where
  display : String

/-- The variant structure of `sqlx::Error` (the enum is
`non_exhaustive`; payloads not inspected by this crate are abstracted
to their `Display` text). -/
inductive SqlxErrorKind where
  | Configuration (e : ExternalError)
  | Database (e : ExternalError)
  | Io (e : IoError)
  | Tls (e : ExternalError)
  | Protocol (s : String)
  | RowNotFound
  | TypeNotFound (typeName : String)
  | ColumnIndexOutOfBounds (index len : Nat)
  | ColumnNotFound (s : String)
  | ColumnDecode (index : String) (e : ExternalError)
  | Decode (e : ExternalError)
  | AnyDriverError (e : ExternalError)
  | PoolTimedOut
  | PoolClosed
  | WorkerCrashed
  | Migrate (e : ExternalError)

/-- A `sqlx::Error`: its variant structure, plus its uninterpreted
`Display` text. -/
structure SqlxError where
  kind : SqlxErrorKind
  display : String

/-- `MSResponseErrorInner` from `src/microsoft.rs`. -/
structure MSResponseErrorInner where
  code : String
  inner_error : Json
  message : String

/-- `MSResponseError` from `src/microsoft.rs`. -/
structure MSResponseError where
  error : MSResponseErrorInner

/-- `AZErrorInner` from `src/microsoft.rs`: the Azure-style recursive
inner-error chain. -/
inductive AZErrorInner where
  | mk (code : Option String) (message : Option String)
       (innererror : Option AZErrorInner)

mutual
/-- `AZError` from `src/microsoft.rs`: `{ error: AZErrorDetails }`. -/
inductive AZError where
  | mk (error : AZErrorDetails)

/-- `AZErrorDetails` from `src/microsoft.rs`. -/
inductive AZErrorDetails where
  | mk (code : String) (message : String) (target : Option String)
       (details : Option (List AZError)) (innererror : Option AZErrorInner)
end

/-- `Display` for `AZErrorDetails`: `"{code} - {message}"`. -/
def azDetailsDisplay : AZErrorDetails → String
  | AZErrorDetails.mk code message _ _ _ => code ++ " - " ++ message

/-- `Display` for `AZError`: delegates to its details. -/
def azDisplay : AZError → String
  | AZError.mk d => azDetailsDisplay d

/-- The error taxonomy `ErrPile` from `src/lib.rs`.  The `IO` variant is
rendered `Io` here; the feature-gated `Python` variant (off by default)
is not modelled. -/
inductive ErrPile where
  | DB (e : SqlxError)
  | Ssh (e : ExternalError)
  | Sftp (e : ExternalError)
  | Auth
  | Permission
  | InUse
  | NotReady
  | Graph (e : ExternalError)
  | GraphErrMSg (e : ExternalError)
  | Json (e : ExternalError)
  | MS (e : MSResponseError)
  | ExtractPdf (e : ExternalError)
  | Zip (e : ExternalError)
  | Decode (e : ExternalError)
  | Thread (e : ExternalError)
  | Image (e : ExternalError)
  | Timeframe (e : ExternalError)
  | Io (e : IoError)
  | Url (e : ExternalError)
  | Req (e : ReqwestError)
  | ReqToStr (e : ExternalError)
  | AZ (e : AZError)
  | FromValue (v : SerdeValue)
  | Custom (s : String)

/-- `PileResult<T>` from `src/lib.rs`. -/
abbrev PileResult (T : Type) := Except ErrPile T

/-- `ErrPile::custom`: the `Cow` round-trip on an owned string is the
identity. -/
def ErrPile.custom (s : String) : ErrPile :=
  ErrPile.Custom s

/-- `ErrPile::is_encrypted`. -/
def is_encrypted : ErrPile → Bool
  | ErrPile.Auth => true
  | _ => false

/-- `ErrPile::is_not_ready`. -/
def is_not_ready : ErrPile → Bool
  | ErrPile.NotReady => true
  | _ => false

/-- `ErrPile::is_io_transient` from `src/lib.rs`: the fixed transient
set of I/O error kinds. -/
def is_io_transient : IoErrorKind → Bool
  | IoErrorKind.WouldBlock => true
  | IoErrorKind.TimedOut => true
  | IoErrorKind.Interrupted => true
  | IoErrorKind.ConnectionReset => true
  | IoErrorKind.ConnectionAborted => true
  | IoErrorKind.NotConnected => true
  | IoErrorKind.ConnectionRefused => true
  | IoErrorKind.AddrInUse => true
  | IoErrorKind.Deadlock => true
  | IoErrorKind.HostUnreachable => true
  | IoErrorKind.NetworkDown => true
  | IoErrorKind.NetworkUnreachable => true
  | IoErrorKind.ResourceBusy => true
  | _ => false

/-- `ErrPile::is_transient` from `src/lib.rs`.  The source is a chain of
`if let` tests returning from inside the matching branch; a `Req` error
whose `status()` is `None` falls through every test and reaches the
final `false`, exactly as the catch-all arm does here. -/
def is_transient : ErrPile → Bool
  | ErrPile.Req req =>
      match req.status with
      | some status =>
          status == 408 || status == 429 || status == 500 ||
          status == 502 || status == 503 || status == 504
      | none => false
  | ErrPile.Io ioe => is_io_transient ioe.kind
  | ErrPile.DB db =>
      match db.kind with
      | SqlxErrorKind.Io err => is_io_transient err.kind
      | SqlxErrorKind.Database _ => true
      | SqlxErrorKind.PoolTimedOut => true
      | SqlxErrorKind.PoolClosed => true
      | _ => false
  | ErrPile.NotReady => true
  | _ => false

/-- The `Display` text of an `ErrPile`, as generated by `thiserror` from
the `#[error(...)]` attributes in `src/lib.rs`. -/
def errPileDisplay : ErrPile → String
  | ErrPile.DB _ => "Error connecting/ storing to DB"
  | ErrPile.Ssh _ => "An error occurred with SSH"
  | ErrPile.Sftp _ => "An error occurred with sftp connection"
  | ErrPile.Auth => "Invalid username or password was provided. Please try again"
  | ErrPile.Permission => "User does not have permission to perform this action."
  | ErrPile.InUse => "This action can't be performed as it is being currently used elsewhere"
  | ErrPile.NotReady => "The resource is not ready yet, please try again later"
  | ErrPile.Graph _ => "An error occurred while getting data using Microsoft Graph"
  | ErrPile.GraphErrMSg _ => "Graph Error Message"
  | ErrPile.Json _ => "Error parsing Json Data (Serde)"
  | ErrPile.MS _ => "Request responded with an error"
  | ErrPile.ExtractPdf _ => "An error occurred while parsing the PDF text (PDF_Extract)"
  | ErrPile.Zip _ => "Error opening zip archive"
  | ErrPile.Decode _ => "Error decoding from base64 content bytes"
  | ErrPile.Thread _ => "A thread panicked while executing a task"
  | ErrPile.Image _ => "An error occurred while performing an operation on a Image"
  | ErrPile.Timeframe _ => "A TimeFrame error occurred"
  | ErrPile.Io e => "IO Err: " ++ e.display
  | ErrPile.Url _ => "An error occurred while parsing the URL"
  | ErrPile.Req _ => "An error occurred while sending request"
  | ErrPile.ReqToStr _ => "An error occurred while converting Http Header to string"
  | ErrPile.AZ _ => "Document Intelligence Services returned with an error"
  | ErrPile.FromValue v => jsonToString v.val
  | ErrPile.Custom s => s

/-- `self.source().map(|e| e.to_string())`: the `Display` text of the
`#[source]` field, when the variant has one.  `MS`, the sentinels and
`Custom` carry no `#[source]` attribute, so their source is `None`;
`FromValue`'s source is the `SerdeValue` itself, whose `Display` is the
compact serialization of the wrapped value. -/
def errPileSourceStr : ErrPile → Option String
  | ErrPile.DB e => some e.display
  | ErrPile.Ssh e => some e.display
  | ErrPile.Sftp e => some e.display
  | ErrPile.Auth => none
  | ErrPile.Permission => none
  | ErrPile.InUse => none
  | ErrPile.NotReady => none
  | ErrPile.Graph e => some e.display
  | ErrPile.GraphErrMSg e => some e.display
  | ErrPile.Json e => some e.display
  | ErrPile.MS _ => none
  | ErrPile.ExtractPdf e => some e.display
  | ErrPile.Zip e => some e.display
  | ErrPile.Decode e => some e.display
  | ErrPile.Thread e => some e.display
  | ErrPile.Image e => some e.display
  | ErrPile.Timeframe e => some e.display
  | ErrPile.Io e => some e.display
  | ErrPile.Url e => some e.display
  | ErrPile.Req e => some e.display
  | ErrPile.ReqToStr e => some e.display
  | ErrPile.AZ az => some (azDisplay az)
  | ErrPile.FromValue v => some (jsonToString v.val)
  | ErrPile.Custom _ => none

/-- `ErrPile::source_str` from `src/lib.rs`. -/
def source_str (e : ErrPile) : String :=
  match e with
  | ErrPile.FromValue val => extract_error_from_json val.val
  | _ => (errPileSourceStr e).getD (errPileDisplay e)


/-- Reading of an optional string field (`Option<String>` in serde):
an absent or `null` field is `None`; a string is `Some`; anything else
is a deserialization failure. -/
def optStringField (fields : List (String × Json)) (name : String) :
    Option (Option String) :=
  match lookupField fields name with
  | none => some none
  | some Json.null => some none
  | some (Json.str s) => some (some s)
  | some _ => none

/-- Deserialization of `AZErrorInner`: all three fields optional, the
`innererror` chain recursing into itself. -/
def azInnerFromJson (j : Json) : Option AZErrorInner :=
  match j with
  | Json.obj fields =>
      match optStringField fields "code", optStringField fields "message" with
      | some code, some message =>
          match h : lookupField fields "innererror" with
          | none => some (AZErrorInner.mk code message none)
          | some Json.null => some (AZErrorInner.mk code message none)
          | some v => (azInnerFromJson v).map (fun i => AZErrorInner.mk code message (some i))
      | _, _ => none
  | _ => none
termination_by sizeOf j
decreasing_by
  all_goals first
    | (have hlt := sizeOf_lookupField h
       simp at hlt ⊢
       omega)
    | (simp only [List.cons.sizeOf_spec]
       omega)
    | omega

/-- Deserialization of the optional `innererror` field of
`AZErrorDetails`. -/
def azInnerOptField (fields : List (String × Json)) :
    Option (Option AZErrorInner) :=
  match lookupField fields "innererror" with
  | none => some none
  | some Json.null => some none
  | some v => (azInnerFromJson v).map some

mutual
/-- `serde_json::from_value::<AZError>` on an already-parsed value:
a map with the required field `error` holding the details (unknown
fields are ignored, as serde does by default).  Positional decoding of
structs from JSON arrays is not modelled. -/
def azErrorFromJson (j : Json) : Option AZError :=
  match j with
  | Json.obj fields =>
      match h : lookupField fields "error" with
      | some v => (azDetailsFromJson v).map AZError.mk
      | none => none
  | _ => none
termination_by sizeOf j
decreasing_by
  all_goals first
    | (have hlt := sizeOf_lookupField h
       simp at hlt ⊢
       omega)
    | (simp only [List.cons.sizeOf_spec]
       omega)
    | omega

/-- Deserialization of `AZErrorDetails`: required string fields `code`
and `message`; optional `target` (string), `details` (array of
`AZError`), `innererror` (`AZErrorInner`). -/
def azDetailsFromJson (j : Json) : Option AZErrorDetails :=
  match j with
  | Json.obj fields =>
      match lookupField fields "code", lookupField fields "message" with
      | some (Json.str code), some (Json.str message) =>
          match optStringField fields "target" with
          | none => none
          | some target =>
              match h : lookupField fields "details" with
              | none =>
                  (azInnerOptField fields).map (fun innererror =>
                    AZErrorDetails.mk code message target none innererror)
              | some Json.null =>
                  (azInnerOptField fields).map (fun innererror =>
                    AZErrorDetails.mk code message target none innererror)
              | some (Json.arr xs) =>
                  match azListFromJson xs with
                  | none => none
                  | some ds =>
                      (azInnerOptField fields).map (fun innererror =>
                        AZErrorDetails.mk code message target (some ds) innererror)
              | some _ => none
      | _, _ => none
  | _ => none
termination_by sizeOf j
decreasing_by
  all_goals first
    | (have hlt := sizeOf_lookupField h
       simp at hlt ⊢
       omega)
    | (simp only [List.cons.sizeOf_spec]
       omega)
    | omega

/-- Elementwise deserialization of a `Vec<AZError>`. -/
def azListFromJson (xs : List Json) : Option (List AZError) :=
  match xs with
  | [] => some []
  | x :: rest =>
      match azErrorFromJson x, azListFromJson rest with
      | some e, some es => some (e :: es)
      | _, _ => none
termination_by sizeOf xs
decreasing_by
  all_goals first
    | (have hlt := sizeOf_lookupField h
       simp at hlt ⊢
       omega)
    | (simp only [List.cons.sizeOf_spec]
       omega)
    | omega
end

/-- The status-code category table at the top of
`ErrPile::handle_error_response`, with the arms in source order. -/
def statusCategory (status_code : Nat) : String :=
  if 100 ≤ status_code ∧ status_code ≤ 199 then "Informational"
  else if 300 ≤ status_code ∧ status_code ≤ 399 then "Redirection"
  else if status_code = 400 then "Bad Request"
  else if status_code = 401 then "Unauthorized"
  else if status_code = 403 then "Forbidden"
  else if status_code = 404 then "Not Found"
  else if status_code = 408 then "Request Timeout"
  else if status_code = 409 then "Conflict"
  else if status_code = 410 then "Gone"
  else if status_code = 413 then "Payload Too Large"
  else if status_code = 414 then "URI Too Long"
  else if status_code = 415 then "Unsupported Media Type"
  else if status_code = 422 then "Unprocessable Entity"
  else if status_code = 429 then "Too Many Requests"
  else if 430 ≤ status_code ∧ status_code ≤ 499 then "Client Error"
  else if status_code = 500 then "Internal Server Error"
  else if status_code = 501 then "Not Implemented"
  else if status_code = 502 then "Bad Gateway"
  else if status_code = 503 then "Service Unavailable"
  else if status_code = 504 then "Gateway Timeout"
  else if status_code = 507 then "Insufficient Storage"
  else if 508 ≤ status_code ∧ status_code ≤ 599 then "Server Error"
  else "Unknown Error"

/-- Abstraction of a completed `reqwest::Response` as consumed by
`handle_error_response`: the numeric status code, and the result of
reading the body as JSON (`response.json::<Value>().await`), whose
error side carries the reqwest error's `Display` text. -/
structure HttpResponse where
  status : Nat
  body : Except String Json

/-- `ErrPile::handle_error_response` from `src/lib.rs`. -/
def handle_error_response (response : HttpResponse) : ErrPile :=
  let status_code := response.status
  let error_category := statusCategory status_code
  match response.body with
  | Except.ok body =>
      match azErrorFromJson body with
      | some az_error => ErrPile.AZ az_error
      | none => ErrPile.FromValue (SerdeValue.mk body)
  | Except.error e =>
      ErrPile.Custom (error_category ++ " (" ++ toString status_code ++
        "): Failed to read error response: " ++ e)

/-- `MSResponse<T>` from `src/microsoft.rs`. -/
structure MSResponse (T : Type) where
  value : Option T
  error : Option MSResponseError

/-- The `From<MSResponse<T>> for PileResult<T>` conversion from
`src/microsoft.rs`.  `dbg` stands for the derived `Debug` formatting of
the response required by the `T: Debug` bound. -/
def msResponseIntoPileResult {T : Type} (dbg : MSResponse T → String)
    (value : MSResponse T) : PileResult T :=
  match value.error with
  | some err => Except.error (ErrPile.MS err)
  | none =>
      match value.value with
      | some val => Except.ok val
      | none =>
          Except.error (ErrPile.Custom
            ("Could not parse Ok variant or the Err variant | Response: " ++ dbg value))

/-- A candidate field name yields nothing for the scan: it is absent,
holds a non-string non-object value, or holds an object whose recursive
extraction is empty. -/
def candidateFails (fields : List (String × Json)) (f : String) : Prop :=
  match lookupField fields f with
  | some (Json.str _) => False
  | some (Json.obj inner) => extract_error_from_json (Json.obj inner) = ""
  | _ => True

theorem scan_nil (fields : List (String × Json)) :
    scanErrorFields fields [] = none := by
  rw [scanErrorFields.eq_def]

theorem scan_cons_absent {fields : List (String × Json)} {f : String}
    (rest : List String) (h : lookupField fields f = none) :
    scanErrorFields fields (f :: rest) = scanErrorFields fields rest := by
  rw [scanErrorFields.eq_def]
  split <;> simp_all

theorem scan_cons_str {fields : List (String × Json)} {f : String} {s : String}
    (rest : List String) (h : lookupField fields f = some (Json.str s)) :
    scanErrorFields fields (f :: rest) = some s := by
  rw [scanErrorFields.eq_def]
  split
  · simp_all
  · rename_i f2 rest2 heq
    first
    | (injection heq with hf hr
       subst hf
       subst hr)
    | (obtain ⟨rfl, rfl⟩ := heq)
    split <;> simp_all

theorem scan_cons_obj {fields : List (String × Json)} {f : String}
    {inner : List (String × Json)} (rest : List String)
    (h : lookupField fields f = some (Json.obj inner)) :
    scanErrorFields fields (f :: rest) =
      if (extract_error_from_json (Json.obj inner)).isEmpty then
        scanErrorFields fields rest
      else some (extract_error_from_json (Json.obj inner)) := by
  rw [scanErrorFields.eq_def]
  split
  · simp_all
  · rename_i f2 rest2 heq
    first
    | (injection heq with hf hr
       subst hf
       subst hr)
    | (obtain ⟨rfl, rfl⟩ := heq)
    split <;> simp_all

theorem extract_obj (fields : List (String × Json)) :
    extract_error_from_json (Json.obj fields) =
      (scanErrorFields fields errorFields).getD (prettyAux (Json.obj fields) 0) := by
  rw [extract_error_from_json.eq_def]
  cases h : scanErrorFields fields errorFields <;> simp [to_string_pretty, h]

theorem extract_str (s : String) :
    extract_error_from_json (Json.str s) = s := by
  rw [extract_error_from_json.eq_def]

theorem scan_cons_other {fields : List (String × Json)} {f : String} {v : Json}
    (rest : List String) (h : lookupField fields f = some v)
    (h1 : ∀ s, v ≠ Json.str s) (h2 : ∀ o, v ≠ Json.obj o) :
    scanErrorFields fields (f :: rest) = scanErrorFields fields rest := by
  rw [scanErrorFields.eq_def]
  split
  · simp_all
  · rename_i f2 rest2 heq
    first
    | (injection heq with hf hr
       subst hf
       subst hr)
    | (obtain ⟨rfl, rfl⟩ := heq)
    split
    · rename_i s5 hs5
      rw [h] at hs5
      injection hs5 with hv
      exact absurd hv (h1 _)
    · rename_i inner5 hi5
      rw [h] at hi5
      injection hi5 with hv
      exact absurd hv (h2 _)
    · rfl

theorem scan_cons_fails {fields : List (String × Json)} {f : String}
    (rest : List String) (h : candidateFails fields f) :
    scanErrorFields fields (f :: rest) = scanErrorFields fields rest := by
  unfold candidateFails at h
  cases hv : lookupField fields f with
  | none => exact scan_cons_absent rest hv
  | some v =>
    cases v with
    | str s => rw [hv] at h; exact absurd h not_false
    | obj inner =>
        rw [hv] at h
        have hee : extract_error_from_json (Json.obj inner) = "" := h
        rw [scan_cons_obj rest hv, hee]
        rfl
    | null => exact scan_cons_other rest hv (by intro s hc; cases hc) (by intro o hc; cases hc)
    | bool b => exact scan_cons_other rest hv (by intro s hc; cases hc) (by intro o hc; cases hc)
    | num n => exact scan_cons_other rest hv (by intro s hc; cases hc) (by intro o hc; cases hc)
    | arr xs => exact scan_cons_other rest hv (by intro s hc; cases hc) (by intro o hc; cases hc)

theorem scan_prefix_fails {fields : List (String × Json)} (pre cands : List String)
    (h : ∀ g ∈ pre, candidateFails fields g) :
    scanErrorFields fields (pre ++ cands) = scanErrorFields fields cands := by
  induction pre with
  | nil => rfl
  | cons g rest ih =>
      rw [List.cons_append, scan_cons_fails _ (h g (by simp))]
      exact ih (fun g2 hg2 => h g2 (by simp [hg2]))

theorem scan_all_fails {fields : List (String × Json)} (cands : List String)
    (h : ∀ g ∈ cands, candidateFails fields g) :
    scanErrorFields fields cands = none := by
  have := scan_prefix_fails cands [] h
  rw [List.append_nil] at this
  rw [this, scan_nil]

/-- C1: an HTTP-request-failure (`Req`) is transient exactly when the
wrapped reqwest error carries a status code in {408, 429, 500, 502, 503,
504}; any other code, or an absent status, is not transient. -/
theorem req_transient_iff_status (r : ReqwestError) :
    is_transient (ErrPile.Req r) = true ↔
      (∃ c, r.status = some c ∧
        (c = 408 ∨ c = 429 ∨ c = 500 ∨ c = 502 ∨ c = 503 ∨ c = 504)) := by
  cases hs : r.status with
  | none => simp [is_transient, hs]
  | some c =>
      simp [is_transient, hs, or_assoc]

/-- C3: an I/O failure (`IO`) is transient exactly when the wrapped
`std::io::Error` has one of the thirteen listed kinds. -/
theorem io_transient_iff_kind (e : IoError) :
    is_transient (ErrPile.Io e) = true ↔
      e.kind ∈ [IoErrorKind.WouldBlock, IoErrorKind.TimedOut,
        IoErrorKind.Interrupted, IoErrorKind.ConnectionReset,
        IoErrorKind.ConnectionAborted, IoErrorKind.NotConnected,
        IoErrorKind.ConnectionRefused, IoErrorKind.AddrInUse,
        IoErrorKind.Deadlock, IoErrorKind.HostUnreachable,
        IoErrorKind.NetworkDown, IoErrorKind.NetworkUnreachable,
        IoErrorKind.ResourceBusy] := by
  cases e with
  | mk k d => cases k <;> simp [is_transient, is_io_transient]

/-- C4: a database failure (`DB`) is transient exactly when the wrapped
sqlx error is an I/O error with a transient kind, a generic
database-returned-an-error, a pool timeout, or a pool-closed condition. -/
theorem db_transient_iff (db : SqlxError) :
    is_transient (ErrPile.DB db) = true ↔
      ((∃ e, db.kind = SqlxErrorKind.Io e ∧ is_io_transient e.kind = true) ∨
       (∃ e, db.kind = SqlxErrorKind.Database e) ∨
       db.kind = SqlxErrorKind.PoolTimedOut ∨
       db.kind = SqlxErrorKind.PoolClosed) := by
  cases db with
  | mk k d => cases k <;> simp [is_transient]

/-- C5: the not-ready sentinel is transient; the authentication,
permission and in-use sentinels are not. -/
theorem sentinel_transience :
    is_transient ErrPile.NotReady = true ∧
    is_transient ErrPile.Auth = false ∧
    is_transient ErrPile.Permission = false ∧
    is_transient ErrPile.InUse = false :=
  ⟨rfl, rfl, rfl, rfl⟩

/-- C9: `source_str` delegates to the extractor for `FromValue`, returns
the wrapped error's own display text for every variant carrying a
`#[source]`, and returns the variant's fixed message for the sentinels,
`MS` (which has no `#[source]`) and `Custom`; `custom(s)` displays `s`
unchanged. -/
theorem source_str_spec :
    (∀ v, source_str (ErrPile.FromValue v) = extract_error_from_json v.val) ∧
    (∀ e, source_str (ErrPile.DB e) = e.display) ∧
    (∀ e, source_str (ErrPile.Ssh e) = e.display) ∧
    (∀ e, source_str (ErrPile.Sftp e) = e.display) ∧
    (∀ e, source_str (ErrPile.Graph e) = e.display) ∧
    (∀ e, source_str (ErrPile.GraphErrMSg e) = e.display) ∧
    (∀ e, source_str (ErrPile.Json e) = e.display) ∧
    (∀ e, source_str (ErrPile.ExtractPdf e) = e.display) ∧
    (∀ e, source_str (ErrPile.Zip e) = e.display) ∧
    (∀ e, source_str (ErrPile.Decode e) = e.display) ∧
    (∀ e, source_str (ErrPile.Thread e) = e.display) ∧
    (∀ e, source_str (ErrPile.Image e) = e.display) ∧
    (∀ e, source_str (ErrPile.Timeframe e) = e.display) ∧
    (∀ e, source_str (ErrPile.Io e) = e.display) ∧
    (∀ e, source_str (ErrPile.Url e) = e.display) ∧
    (∀ e, source_str (ErrPile.Req e) = e.display) ∧
    (∀ e, source_str (ErrPile.ReqToStr e) = e.display) ∧
    (∀ az, source_str (ErrPile.AZ az) = azDisplay az) ∧
    (∀ e, source_str (ErrPile.MS e) = "Request responded with an error") ∧
    source_str ErrPile.Auth = "Invalid username or password was provided. Please try again" ∧
    source_str ErrPile.Permission = "User does not have permission to perform this action." ∧
    source_str ErrPile.InUse = "This action can't be performed as it is being currently used elsewhere" ∧
    source_str ErrPile.NotReady = "The resource is not ready yet, please try again later" ∧
    (∀ s, source_str (ErrPile.Custom s) = s) ∧
    (∀ s, source_str (ErrPile.custom s) = s) := by
  repeat' apply And.intro
  all_goals first
    | rfl
    | (intro x
       rfl)

/-- C10: converting an `MSResponse<T>` to a `PileResult<T>` yields
`Err(MS e)` whenever the error field is populated (even when the value
field also is), `Ok(v)` when only the value field is, and a `Custom`
error reporting that neither variant could be parsed when both fields
are absent. -/
theorem ms_response_into_pile_result {T : Type} (dbg : MSResponse T → String)
    (r : MSResponse T) :
    (∀ e, r.error = some e →
        msResponseIntoPileResult dbg r = Except.error (ErrPile.MS e)) ∧
    (∀ v, r.error = none → r.value = some v →
        msResponseIntoPileResult dbg r = Except.ok v) ∧
    (r.error = none → r.value = none →
        msResponseIntoPileResult dbg r = Except.error (ErrPile.Custom
          ("Could not parse Ok variant or the Err variant | Response: " ++ dbg r))) := by
  refine ⟨fun e he => ?_, fun v he hv => ?_, fun he hv => ?_⟩ <;>
    simp [msResponseIntoPileResult, he]
  · simp [hv]
  · simp [hv]

theorem ms_response_into_pile_result_witness :
    msResponseIntoPileResult (fun _ => "dbg")
      (MSResponse.mk (some 7)
        (some (MSResponseError.mk (MSResponseErrorInner.mk "c" Json.null "m"))) : MSResponse Nat) =
      Except.error (ErrPile.MS (MSResponseError.mk (MSResponseErrorInner.mk "c" Json.null "m"))) :=
  (ms_response_into_pile_result (fun _ => "dbg")
      ⟨some 7, some (MSResponseError.mk (MSResponseErrorInner.mk "c" Json.null "m"))⟩).1
    (MSResponseError.mk (MSResponseErrorInner.mk "c" Json.null "m")) rfl

/-- C8 counterexample: 405 is an unmapped 4xx code but its category is
"Unknown Error", not "Client Error"; likewise 505 maps to
"Unknown Error", not "Server Error". -/
theorem status_category_gap :
    statusCategory 405 = "Unknown Error" ∧ statusCategory 405 ≠ "Client Error" ∧
    statusCategory 505 = "Unknown Error" ∧ statusCategory 505 ≠ "Server Error" := by
  repeat' apply And.intro
  all_goals decide

/-- C8 amended: the label table maps 1xx to "Informational", 3xx to
"Redirection", the explicitly listed 4xx/5xx codes to their names,
430-499 to "Client Error", 508-599 to "Server Error", and every other
code (including unmapped 4xx codes below 430 and 505-506) to
"Unknown Error"; the label only reaches the output when the body cannot
be read. -/
theorem status_category_spec (c : Nat) :
    (100 ≤ c → c ≤ 199 → statusCategory c = "Informational") ∧
    (300 ≤ c → c ≤ 399 → statusCategory c = "Redirection") ∧
    statusCategory 400 = "Bad Request" ∧
    statusCategory 401 = "Unauthorized" ∧
    statusCategory 403 = "Forbidden" ∧
    statusCategory 404 = "Not Found" ∧
    statusCategory 408 = "Request Timeout" ∧
    statusCategory 409 = "Conflict" ∧
    statusCategory 410 = "Gone" ∧
    statusCategory 413 = "Payload Too Large" ∧
    statusCategory 414 = "URI Too Long" ∧
    statusCategory 415 = "Unsupported Media Type" ∧
    statusCategory 422 = "Unprocessable Entity" ∧
    statusCategory 429 = "Too Many Requests" ∧
    statusCategory 500 = "Internal Server Error" ∧
    statusCategory 501 = "Not Implemented" ∧
    statusCategory 502 = "Bad Gateway" ∧
    statusCategory 503 = "Service Unavailable" ∧
    statusCategory 504 = "Gateway Timeout" ∧
    statusCategory 507 = "Insufficient Storage" ∧
    (430 ≤ c → c ≤ 499 → statusCategory c = "Client Error") ∧
    (508 ≤ c → c ≤ 599 → statusCategory c = "Server Error") ∧
    (¬ (100 ≤ c ∧ c ≤ 199) → ¬ (300 ≤ c ∧ c ≤ 399) →
      c ∉ [400, 401, 403, 404, 408, 409, 410, 413, 414, 415, 422, 429,
           500, 501, 502, 503, 504, 507] →
      ¬ (430 ≤ c ∧ c ≤ 499) → ¬ (508 ≤ c ∧ c ≤ 599) →
      statusCategory c = "Unknown Error") ∧
    (∀ body r r2, r.body = Except.ok body → r2.body = Except.ok body →
      handle_error_response r = handle_error_response r2) ∧
    (∀ st e, handle_error_response (HttpResponse.mk st (Except.error e)) =
      ErrPile.Custom (statusCategory st ++ " (" ++ toString st ++
        "): Failed to read error response: " ++ e)) := by
  repeat' apply And.intro
  all_goals try decide
  · intro h1 h2
    simp only [statusCategory]
    rw [if_pos ⟨h1, h2⟩]
  · intro h1 h2
    simp only [statusCategory]
    repeat rw [if_neg (by omega)]
    rw [if_pos ⟨h1, h2⟩]
  · intro h1 h2
    simp only [statusCategory]
    repeat rw [if_neg (by omega)]
    rw [if_pos ⟨h1, h2⟩]
  · intro h1 h2
    simp only [statusCategory]
    repeat rw [if_neg (by omega)]
    rw [if_pos ⟨h1, h2⟩]
  · intro h1 h2 h3 h4 h5
    simp only [List.mem_cons, List.not_mem_nil, or_false] at h3
    push_neg at h3
    obtain ⟨e400, e401, e403, e404, e408, e409, e410, e413, e414, e415,
      e422, e429, e500, e501, e502, e503, e504, e507⟩ := h3
    simp only [statusCategory]
    repeat rw [if_neg (by omega)]
  · intro body r r2 hb1 hb2
    simp [handle_error_response, hb1, hb2]
  · intro st e
    simp [handle_error_response]

theorem status_category_spec_witness :
    statusCategory 150 = "Informational" ∧ statusCategory 450 = "Client Error" ∧
    statusCategory 550 = "Server Error" ∧ statusCategory 402 = "Unknown Error" :=
  ⟨(status_category_spec 150).1 (by decide) (by decide),
   (status_category_spec 450).2.2.2.2.2.2.2.2.2.2.2.2.2.2.2.2.2.2.2.2.1 (by decide) (by decide),
   (status_category_spec 550).2.2.2.2.2.2.2.2.2.2.2.2.2.2.2.2.2.2.2.2.2.1 (by decide) (by decide),
   (status_category_spec 402).2.2.2.2.2.2.2.2.2.2.2.2.2.2.2.2.2.2.2.2.2.2.1
     (by decide) (by decide) (by decide) (by decide) (by decide)⟩

/-- C2: the extractor scans the candidate names in source order; the
first candidate that either holds a string, or holds an object whose
recursive extraction is non-empty, determines the result; earlier
failing candidates are skipped.  The two nested/priority examples from
the specification evaluate as stated. -/
theorem extract_priority_order (fields : List (String × Json))
    (pre post : List String) (f : String)
    (hsplit : errorFields = pre ++ f :: post)
    (hpre : ∀ g ∈ pre, candidateFails fields g) :
    (∀ s, lookupField fields f = some (Json.str s) →
        extract_error_from_json (Json.obj fields) = s) ∧
    (∀ inner, lookupField fields f = some (Json.obj inner) →
        extract_error_from_json (Json.obj inner) ≠ "" →
        extract_error_from_json (Json.obj fields) =
          extract_error_from_json (Json.obj inner)) ∧
    extract_error_from_json
        (Json.obj [("error", Json.obj [("message", Json.str "nested fail")])]) =
      "nested fail" ∧
    extract_error_from_json
        (Json.obj [("title", Json.str "Not Found"), ("message", Json.str "resource missing")]) =
      "resource missing" := by
  refine ⟨fun s hl => ?_, fun inner hl hne => ?_, ?_, ?_⟩
  · rw [extract_obj, hsplit, scan_prefix_fails pre _ hpre, scan_cons_str post hl]
    rfl
  · rw [extract_obj, hsplit, scan_prefix_fails pre _ hpre, scan_cons_obj post hl]
    have hne2 : (extract_error_from_json (Json.obj inner)).isEmpty = false := by
      cases he : (extract_error_from_json (Json.obj inner)).isEmpty
      · rfl
      · exact absurd ((String.isEmpty_iff _).mp he) hne
    rw [hne2]
    rfl
  · rw [extract_obj]
    rw [show errorFields = "error" :: ["err", "message", "detail", "details",
      "description", "errorMessage", "error_message", "reason", "title"] from rfl]
    rw [scan_cons_obj _ (by rfl)]
    rw [extract_obj]
    rw [show errorFields = "error" :: "err" :: "message" :: ["detail", "details",
      "description", "errorMessage", "error_message", "reason", "title"] from rfl]
    rw [scan_cons_absent _ (by rfl), scan_cons_absent _ (by rfl), scan_cons_str _ (by rfl)]
    rfl
  · rw [extract_obj]
    rw [show errorFields = "error" :: "err" :: "message" :: ["detail", "details",
      "description", "errorMessage", "error_message", "reason", "title"] from rfl]
    rw [scan_cons_absent _ (by rfl), scan_cons_absent _ (by rfl), scan_cons_str _ (by rfl)]
    rfl

theorem extract_priority_order_witness :
    extract_error_from_json (Json.obj [("error", Json.str "disk full")]) = "disk full" :=
  (extract_priority_order [("error", Json.str "disk full")] []
      ["err", "message", "detail", "details", "description", "errorMessage",
       "error_message", "reason", "title"] "error" rfl (by simp)).1 "disk full" rfl

/-- C6: the extractor is total: strings are returned verbatim,
non-object non-string values are serialized compactly (42 gives "42"),
and an object with no fruitful candidate falls back to the pretty
serialization (or the fixed string, were serialization to fail). -/
theorem extract_total (fields : List (String × Json))
    (hfail : ∀ g ∈ errorFields, candidateFails fields g) :
    (∀ s, extract_error_from_json (Json.str s) = s) ∧
    extract_error_from_json Json.null = jsonToString Json.null ∧
    (∀ b, extract_error_from_json (Json.bool b) = jsonToString (Json.bool b)) ∧
    (∀ n, extract_error_from_json (Json.num n) = jsonToString (Json.num n)) ∧
    (∀ xs, extract_error_from_json (Json.arr xs) = jsonToString (Json.arr xs)) ∧
    extract_error_from_json (Json.num 42) = "42" ∧
    extract_error_from_json (Json.obj fields) =
      (match to_string_pretty (Json.obj fields) with
       | Except.ok s => s
       | Except.error _ => "Unknown error format") := by
  refine ⟨fun s => extract_str s, ?_, fun b => ?_, fun n => ?_, fun xs => ?_, ?_, ?_⟩
  · rw [extract_error_from_json.eq_def]
  · rw [extract_error_from_json.eq_def]
  · rw [extract_error_from_json.eq_def]
  · rw [extract_error_from_json.eq_def]
  · rw [extract_error_from_json.eq_def]
    simp [jsonToString]
    decide
  · rw [extract_obj, scan_all_fails _ hfail]
    rfl

theorem extract_total_witness :
    extract_error_from_json (Json.obj [("foo", Json.str "bar")]) =
      "\x7b\n  \"foo\": \"bar\"\n\x7d" := by
  have h := (extract_total [("foo", Json.str "bar")] (by
    intro g hg
    fin_cases hg <;> simp [candidateFails, lookupField])).2.2.2.2.2.2
  rw [h]
  simp only [to_string_pretty]
  rw [prettyAux.eq_def]
  simp [prettyObj, prettyAux, jsonToString, quoteJson, escapeChar, indentStr]
  rfl

/-- C7: with a readable JSON body, the handler produces the structured
`AZ` variant exactly when the body deserializes as `AZError`, and the
opaque `FromValue` variant otherwise; the schema example
`{"error":{"code":"X","message":"Y"}}` deserializes
structurally. -/
theorem handle_error_response_dispatch (r : HttpResponse) (body : Json)
    (az : AZError) (hb : r.body = Except.ok body) :
    (azErrorFromJson body = some az → handle_error_response r = ErrPile.AZ az) ∧
    (azErrorFromJson body = none →
      handle_error_response r = ErrPile.FromValue (SerdeValue.mk body)) ∧
    azErrorFromJson (Json.obj [("error",
        Json.obj [("code", Json.str "X"), ("message", Json.str "Y")])]) =
      some (AZError.mk (AZErrorDetails.mk "X" "Y" none none none)) := by
  refine ⟨fun h => ?_, fun h => ?_, ?_⟩
  · simp [handle_error_response, hb, h]
  · simp [handle_error_response, hb, h]
  · rw [azErrorFromJson.eq_def]
    simp [lookupField, azDetailsFromJson.eq_def, optStringField, azInnerOptField]

theorem handle_error_response_dispatch_witness :
    handle_error_response (HttpResponse.mk 404 (Except.ok (Json.obj [("error",
        Json.obj [("code", Json.str "X"), ("message", Json.str "Y")])]))) =
      ErrPile.AZ (AZError.mk (AZErrorDetails.mk "X" "Y" none none none)) := by
  have t := handle_error_response_dispatch
    (HttpResponse.mk 404 (Except.ok (Json.obj [("error",
      Json.obj [("code", Json.str "X"), ("message", Json.str "Y")])])))
    (Json.obj [("error", Json.obj [("code", Json.str "X"), ("message", Json.str "Y")])])
    (AZError.mk (AZErrorDetails.mk "X" "Y" none none none)) rfl
  exact t.1 t.2.2


end ErrorPile
